import Mathlib

/-!
Verification development for the `rather` stellar-activity simulator.

The repository's core is `src/rust/src/simulation.rs` (the `Simulation` type:
construction from a config file, the spot-population maintenance process
`check_fill_factor`, and the observation pipelines `observe_flux`,
`observe_rv`, `draw_rgba`) together with `src/src/star.rs` (the `Star`
constructor and the quadratic limb-darkening chord integral).

Embedding conventions:
* `f64` quantities handled only by field operations and comparisons are
  modelled as exact rationals (`ℚ`), so that every operational definition is
  computable and concrete runs can be settled by `decide`.  The real-analytic
  part of `star.rs` (`Star::new`, `limb_integral`), which uses `sin`, `sqrt`
  and `atan`, is modelled over `ℝ`.
* External collaborators (the blackbody integral `planck_integral`, the
  Gaussian fit `fit_rv`, the bisector extractor `compute_bisector`, the
  Doppler shift `Profile::shift`) are taken as function parameters, following
  the spec's interface contracts.
* The pseudo-random generator is modelled as the list of samples it will
  produce, consumed in order; the unbounded rejection/packing loops take a
  fuel parameter and return `none` when the fuel or the sample stream runs
  out, so a `some` result corresponds exactly to a run of the code that
  returned.
* `spot.rs` is not among the repository files provided; the parts of it this
  development needs (`Spot::new`, `alive`, `collides_with`) are modelled from
  the spec and documented as such below.
-/

namespace Rather

/-- Star-level data the simulation reads at run time (the fields of
`star.rs::Star` consumed by `simulation.rs`, modelled over `ℚ`; the
construction-time real-analytic quantities are modelled separately over `ℝ`
by `Star.new` below). -/
structure StarData where
  temperature : ℚ
  spot_temp_diff : ℚ
  flux_quiet : ℚ
  zero_rv : ℚ
  integrated_ccf : List ℚ
  profile_quiet_rv : List ℚ
  profile_active_len : ℕ
  grid_size : ℕ
deriving DecidableEq

/-- An active region, mirroring the fields of `spot.rs::Spot` that
`simulation.rs` reads and writes (`radius`, `temperature`, `intensity`,
`time_appear`, `time_disappear`, position, flags). -/
structure Spot where
  latitude : ℚ
  longitude : ℚ
  radius : ℚ
  temperature : ℚ
  plage : Bool
  mortal : Bool
  intensity : ℚ
  time_appear : ℚ
  time_disappear : ℚ
deriving DecidableEq

/-- Modelled from the spec: `alive` lives in the missing `spot.rs`; the spec's
data model states the invariant alive(t) ⇔ time_appear ≤ t < time_disappear. -/
def Spot.alive (s : Spot) (t : ℚ) : Bool :=
  decide (s.time_appear ≤ t) && decide (t < s.time_disappear)

/-- Length of the lifetime window of a dynamically created (mortal) spot.
Modelled from the spec: the missing `spot.rs` fixes the window, the spec only
says dynamic regions get "a lifetime window offset to the triggering time";
a fixed positive length is used, its value is immaterial to the theorems. -/
def mortalLifetime : ℚ := 15

/-- Bound standing in for the simulation span of a statically configured spot.
Modelled from the spec: static regions have "fixed lifetime = simulation
span"; the span is modelled as a window containing every run time considered. -/
def staticSpan : ℚ := 1000000

/-- Modelled from the spec: `Spot::new` lives in the missing `spot.rs`.  Per
the spec's data model a spot stores position, angular size, polarity, an
intensity recomputed per waveband (0 until first recomputed), a temperature
offset from the disk temperature, and a lifetime window: for dynamic (mortal)
spots a window starting at 0 that the maintenance process offsets by the
triggering time, for static spots the whole simulation span. -/
def Spot.new (star : StarData) (latitude longitude size : ℚ)
    (plage mortal : Bool) : Spot :=
  { latitude := latitude
    longitude := longitude
    radius := size
    temperature := star.temperature - star.spot_temp_diff
    plage := plage
    mortal := mortal
    intensity := 0
    time_appear := if mortal then 0 else -staticSpan
    time_disappear := if mortal then mortalLifetime else staticSpan }

/-- Modelled from the spec: `collides_with` lives in the missing `spot.rs`;
the spec specifies only that it is the overlap test between two regions'
extents ("Test for collision", "non-overlap constraint").  It is modelled as
the two regions' centres lying closer than the sum of their angular sizes in
the flat latitude/longitude metric; the particular formula only matters to
the concrete counterexample, every general theorem holds for it as stated. -/
def Spot.collides_with (a b : Spot) : Bool :=
  decide ((a.latitude - b.latitude) ^ 2 + (a.longitude - b.longitude) ^ 2 <
    (a.radius + b.radius) ^ 2)

/-- The simulation state of `simulation.rs::Simulation`: the shared star, the
growable spot collection, the dynamic fill-factor target, and the random
generator modelled as the stream of samples it will produce. -/
structure Simulation where
  star : StarData
  spots : List Spot
  dynamic_fill_factor : ℚ
  generator : List ℚ
deriving DecidableEq

/-- Summed covered area of the regions alive at `t`
(`simulation.rs:123`-`127`): Σ over alive spots of radius²/2. -/
def currentFillFactor (spots : List Spot) (t : ℚ) : ℚ :=
  ((spots.filter (fun s => s.alive t)).map (fun s => s.radius * s.radius / 2)).sum

/-- The size rejection sampling of `check_fill_factor`
(`simulation.rs:139`-`142`): draw lognormal samples, scale by `9.4e-6`, take
the first scaled value below `0.001`.  Consumes the generator stream; `none`
when the stream runs out. -/
def drawFill : List ℚ → Option (ℚ × List ℚ)
  | [] => none
  | v :: rest =>
    let s := v * (94 / 10000000)
    if s < 1 / 1000 then some (s, rest) else drawFill rest

/-- The growth loop of `check_fill_factor` (`simulation.rs:138`-`164`): while
the tracked coverage is below the target, draw a size (rejection sampling),
a latitude in [-30, 30], a longitude in [0, 360) (the two range draws are
modelled as the next two stream values), build the candidate with its window
offset by `time`, test collision against each existing spot alive at the
candidate's appearance or disappearance time, and append it when no collision
is found.  `fuel` bounds the number of iterations; `none` models a run that
has not returned within the fuel or exhausted the sample stream. -/
def checkFillFactorLoop (star : StarData) (target time : ℚ) :
    ℕ → List Spot → ℚ → List ℚ → Option (List Spot × List ℚ)
  | 0, spots, current, gen =>
    if target ≤ current then some (spots, gen) else none
  | fuel + 1, spots, current, gen =>
    if target ≤ current then some (spots, gen)
    else
      match drawFill gen with
      | none => none
      | some (newFill, gen) =>
        match gen with
        | lat :: long :: gen =>
          let s0 := Spot.new star lat long newFill false true
          let newSpot := { s0 with
            time_appear := s0.time_appear + time
            time_disappear := s0.time_disappear + time }
          let collides := (spots.filter (fun s =>
              s.alive newSpot.time_appear || s.alive newSpot.time_disappear)).any
            (fun s => newSpot.collides_with s)
          if collides then
            checkFillFactorLoop star target time fuel spots current gen
          else
            checkFillFactorLoop star target time fuel (spots ++ [newSpot])
              (current + newSpot.radius * newSpot.radius / 2) gen
        | _ => none

/-- `Simulation::check_fill_factor` (`simulation.rs:122`-`166`): compute the
current coverage of the regions alive at `time` and run the growth loop. -/
def Simulation.check_fill_factor (sim : Simulation) (time : ℚ) (fuel : ℕ) :
    Option Simulation :=
  match checkFillFactorLoop sim.star sim.dynamic_fill_factor time fuel sim.spots
      (currentFillFactor sim.spots time) sim.generator with
  | none => none
  | some (spots, gen) => some { sim with spots := spots, generator := gen }

/-- The per-spot waveband intensity update shared by the three observation
pipelines (`simulation.rs:177`-`180`, `202`-`205`, `259`-`261`):
`spot.intensity = planck_integral(spot.temperature, band) / star_intensity`. -/
def updateIntensity (planck : ℚ → ℚ → ℚ → ℚ) (wmin wmax starIntensity : ℚ)
    (s : Spot) : Spot :=
  { s with intensity := planck s.temperature wmin wmax / starIntensity }

/-- Sequential fill-factor maintenance over a batch of times
(`simulation.rs:181`-`183`). -/
def Simulation.checkAll (sim : Simulation) (times : List ℚ) (fuel : ℕ) :
    Option Simulation :=
  times.foldl (fun acc t => acc.bind (fun s => s.check_fill_factor t fuel))
    (some sim)

/-- `Simulation::observe_flux` (`simulation.rs:170`-`191`): update every
spot's intensity for the requested band, run `check_fill_factor` at each
time, then map each time to `(flux_quiet - Σ spots get_flux(t)) / flux_quiet`
(the sum runs over the whole collection; `get_flux` of the missing `spot.rs`
is the parameter `getFlux`).  Returns the observed values together with the
mutated simulation state. -/
def Simulation.observe_flux (planck : ℚ → ℚ → ℚ → ℚ) (getFlux : Spot → ℚ → ℚ)
    (sim : Simulation) (time : List ℚ) (wmin wmax : ℚ) (fuel : ℕ) :
    Option (List ℚ × Simulation) :=
  let starIntensity := planck sim.star.temperature wmin wmax
  let sim1 := { sim with
    spots := sim.spots.map (updateIntensity planck wmin wmax starIntensity) }
  match sim1.checkAll time fuel with
  | none => none
  | some sim2 =>
    some (time.map (fun t =>
      (sim2.star.flux_quiet - (sim2.spots.map (fun s => getFlux s t)).sum) /
        sim2.star.flux_quiet), sim2)

/-- An observed radial velocity and line bisector
(`simulation.rs::Observation`). -/
structure Observation where
  rv : ℚ
  bisector : List ℚ
deriving DecidableEq

/-- In-place accumulation `for (total, this) in total.iter_mut().zip(prof) {
*total += *this }` (`simulation.rs:216`-`218`): entries of `total` beyond the
length of `prof` are left unchanged. -/
def addInto (total prof : List ℚ) : List ℚ :=
  List.zipWith (· + ·) total prof ++ total.drop prof.length

/-- In-place replacement `for (spot, star) in spotProfile.iter_mut().zip(ccf)
{ *spot = *star - *spot }` (`simulation.rs:221`-`223`): entries of
`spotProfile` beyond the length of `ccf` are left unchanged. -/
def subFrom (spotProfile ccf : List ℚ) : List ℚ :=
  List.zipWith (fun sp st => st - sp) spotProfile ccf ++
    spotProfile.drop ccf.length

/-- `Simulation::observe_rv` (`simulation.rs:195`-`248`): update intensities,
run `check_fill_factor` at each time, then for each time accumulate the ccf
contributions (`getCcf`, standing for the missing `spot.rs::get_ccf`) of the
spots alive at that time into a zero buffer sized to the active reference
profile, replace the buffer with quiet-integrated-profile minus buffer, and
report the fitted centroid and the bisector points, each minus the star's
zero-point.  `fitRv` and `computeBisector` stand for the external fit and
bisector-extraction routines. -/
def Simulation.observe_rv (planck : ℚ → ℚ → ℚ → ℚ) (getCcf : Spot → ℚ → List ℚ)
    (fitRv : List ℚ → List ℚ → ℚ) (computeBisector : List ℚ → List ℚ → List ℚ)
    (sim : Simulation) (time : List ℚ) (wmin wmax : ℚ) (fuel : ℕ) :
    Option (List Observation × Simulation) :=
  let starIntensity := planck sim.star.temperature wmin wmax
  let sim1 := { sim with
    spots := sim.spots.map (updateIntensity planck wmin wmax starIntensity) }
  match sim1.checkAll time fuel with
  | none => none
  | some sim2 =>
    some (time.map (fun t =>
      let spotProfile := (sim2.spots.filter (fun s => s.alive t)).foldl
        (fun total s => addInto total (getCcf s t))
        (List.replicate sim2.star.profile_active_len 0)
      let net := subFrom spotProfile sim2.star.integrated_ccf
      { rv := fitRv sim2.star.profile_quiet_rv net - sim2.star.zero_rv
        bisector := (computeBisector sim2.star.profile_quiet_rv net).map
          (fun b => b - sim2.star.zero_rv) }), sim2)

/-- The net observed profile as the spec states it (`spec.md` §4.3): pointwise,
quiet integrated profile minus the sum over the alive regions of their
line-profile contributions. -/
def specNetProfile (star : StarData) (getCcf : Spot → ℚ → List ℚ)
    (spots : List Spot) (t : ℚ) : List ℚ :=
  (List.range star.integrated_ccf.length).map (fun i =>
    star.integrated_ccf.getD i 0 -
      ((spots.filter (fun s => s.alive t)).map
        (fun s => (getCcf s t).getD i 0)).sum)

/-- The row index the raster writer derives from a normalized disk ordinate
(`simulation.rs:274`): `((y + 1.0) / 2.0 * 1000.0).round() as usize`. -/
def yIndexOf (y : ℚ) : ℕ := (round ((y + 1) / 2 * 1000)).toNat

/-- The column index the raster writer derives from a normalized disk ordinate
(`simulation.rs:284`): `((-z + 1.0) / 2.0 * 1000.0).round() as usize`. -/
def zIndexOf (z : ℚ) : ℕ := (round ((-z + 1) / 2 * 1000)).toNat

/-- The first byte index `draw_rgba` writes for the pixel at `(y, z)`
(`simulation.rs:285`-`286`): `4 * (z_index * 1000 + y_index)`; the raster
side is the hard-coded constant 1000, independent of the disk's grid
resolution. -/
def drawPixelByteIndex (y z : ℚ) : ℕ := 4 * (zIndexOf z * 1000 + yIndexOf y)

/-- The state effect of `Simulation::draw_rgba` (`simulation.rs:252`-`261`):
run `check_fill_factor` at the requested time, then update every spot's
intensity for the fixed visible band 4000e-10 .. 7000e-10 m.  The pixel
writes go to a caller-provided buffer and are modelled by
`drawPixelByteIndex`. -/
def Simulation.draw_rgba (planck : ℚ → ℚ → ℚ → ℚ) (sim : Simulation)
    (time : ℚ) (fuel : ℕ) : Option Simulation :=
  match sim.check_fill_factor time fuel with
  | none => none
  | some sim1 =>
    let starIntensity := planck sim1.star.temperature (4 / 10000000) (7 / 10000000)
    let spots1 := sim1.spots.map
      (updateIntensity planck (4 / 10000000) (7 / 10000000) starIntensity)
    some { sim1 with spots := spots1 }

/-- One section of the ini-style configuration: a list of key/value pairs. -/
abbrev IniSection := List (String × String)

/-- Model of `str::starts_with`, stated over the character lists so that it
evaluates by `decide`/`simp` (same semantics as `String.startsWith`). -/
def startsWithModel (s p : String) : Bool := p.data.isPrefixOf s.data

/-- A parsed configuration file: named sections in file order (the interface
of the external `ini` crate as `Simulation::new` consumes it). -/
structure Config where
  sections : List (String × IniSection)

/-- Look a section up by name (`file.section(Some(name))`). -/
def Config.findSection (c : Config) (name : String) : Option IniSection :=
  (c.sections.find? (fun p => p.1 == name)).map Prod.snd

/-- Look a field up inside a section (`section.get(field)`). -/
def lookupField (sec : IniSection) (field : String) : Option String :=
  (sec.find? (fun p => p.1 == field)).map Prod.snd

/-- The message `get!` writes for a field absent from its section
(`simulation.rs:41`-`46`). -/
def missingFieldMsg (field secName filename : String) : String :=
  "Missing field " ++ field ++ " of section " ++ secName ++
    " in config file " ++ filename

/-- The message `get!` writes for a field value that does not parse
(`simulation.rs:50`-`56`). -/
def cannotParseMsg (field secName filename : String) : String :=
  "Cannot parse field " ++ field ++ " of section " ++ secName ++
    " in config file " ++ filename

/-- The `get!` macro (`simulation.rs:36`-`61`): read a field of a section; a
missing field appends an error message and substitutes the string `"1.0"`, a
value that fails to parse appends an error message and substitutes the
type's default.  `parse` stands for the `str::parse` instance of the
requested type and `dflt` for `Default::default()`; the accumulated error
list is threaded through. -/
def getField {α : Type} (parse : String → Option α) (dflt : α)
    (errs : List String) (sec : IniSection) (filename secName field : String) :
    α × List String :=
  match lookupField sec field with
  | some v =>
    match parse v with
    | some x => (x, errs)
    | none => (dflt, errs ++ [cannotParseMsg field secName filename])
  | none =>
    let errs1 := errs ++ [missingFieldMsg field secName filename]
    match parse "1.0" with
    | some x => (x, errs1)
    | none => (dflt, errs1 ++ [cannotParseMsg field secName filename])

/-- The spot-construction pass of `Simulation::new` (`simulation.rs:96`-`108`):
for every section whose name starts with "spot", read latitude, longitude,
size and plage flag through `get!` and build a static spot. -/
def loadSpots (pf : String → Option ℚ) (pb : String → Option Bool)
    (star : StarData) (filename : String) (errs : List String) :
    List (String × IniSection) → List Spot × List String
  | [] => ([], errs)
  | (name, sec) :: rest =>
    let r1 := getField pf 0 errs sec filename name "latitude"
    let r2 := getField pf 0 r1.2 sec filename name "longitude"
    let r3 := getField pf 0 r2.2 sec filename name "size"
    let r4 := getField pb false r3.2 sec filename name "plage"
    let rec5 := loadSpots pf pb star filename r4.2 rest
    (Spot.new star r1.1 r2.1 r3.1 r4.1 false :: rec5.1, rec5.2)

/-- The star-level data `Simulation::new` hands to the spots it builds.  The
derived quantities of `Star::new` (quiet flux, zero-point, integrated
profile) are real-analytic and are modelled separately by `Star.new` over
`ℝ`; the claims settled against this ℚ-level constructor (error batching,
static-spot collision) never read them, so they are left at their zero
values here. -/
def StarData.ofConfig (temperature spot_temp_diff : ℚ) (grid_size : ℕ) :
    StarData :=
  { temperature := temperature
    spot_temp_diff := spot_temp_diff
    flux_quiet := 0
    zero_rv := 0
    integrated_ccf := []
    profile_quiet_rv := []
    profile_active_len := 0
    grid_size := grid_size }

/-- Outcome of `Simulation::new`: the missing-section `expect` aborts at once
(`simulation.rs:70`-`73`), accumulated configuration errors abort after every
field has been examined (`simulation.rs:110`-`112`), otherwise the simulation
is built. -/
inductive NewOutcome
  | missingSection (msg : String)
  | configErrors (errors : List String)
  | ok (sim : Simulation)
deriving DecidableEq

/-- `Simulation::new` (`simulation.rs:65`-`120`): abort immediately when the
"star" section is missing; otherwise read the nine star fields and every
"spot*" section through `get!`, accumulating error messages, build the star
and the static spots, and abort with the whole batch when any error was
recorded.  `pf`, `pn`, `pb` stand for the `f64`, `usize` and `bool` parse
instances; `gen` is the fresh random generator's sample stream. -/
def Simulation.new (pf : String → Option ℚ) (pn : String → Option ℕ)
    (pb : String → Option Bool) (cfg : Config) (filename : String)
    (gen : List ℚ) : NewOutcome :=
  match cfg.findSection "star" with
  | none => .missingSection ("Missing section start in config file " ++ filename)
  | some starSec =>
    let r1 := getField pf 0 ([] : List String) starSec filename "star" "radius"
    let r2 := getField pf 0 r1.2 starSec filename "star" "period"
    let r3 := getField pf 0 r2.2 starSec filename "star" "inclination"
    let r4 := getField pf 0 r3.2 starSec filename "star" "Tstar"
    let r5 := getField pf 0 r4.2 starSec filename "star" "Tdiff_spot"
    let r6 := getField pf 0 r5.2 starSec filename "star" "limb1"
    let r7 := getField pf 0 r6.2 starSec filename "star" "limb2"
    let r8 := getField pf 0 r7.2 starSec filename "star" "fillfactor"
    let r9 := getField pn 0 r8.2 starSec filename "star" "grid_resolution"
    let star := StarData.ofConfig r4.1 r5.1 r9.1
    let rs := loadSpots pf pb star filename r9.2
      (cfg.sections.filter (fun p => startsWithModel p.1 "spot"))
    if rs.2.isEmpty then
      .ok { star := star, spots := rs.1, dynamic_fill_factor := r8.1,
            generator := gen }
    else .configErrors rs.2

/-- The error messages one field contributes, in the order `get!` records
them (reference definition for the batching theorem). -/
def fieldErrors {α : Type} (parse : String → Option α) (sec : IniSection)
    (filename secName field : String) : List String :=
  match lookupField sec field with
  | some v =>
    match parse v with
    | some _ => []
    | none => [cannotParseMsg field secName filename]
  | none =>
    match parse "1.0" with
    | some _ => [missingFieldMsg field secName filename]
    | none => [missingFieldMsg field secName filename,
               cannotParseMsg field secName filename]

/-- Follows the spec's words (§6, §7): the batch of descriptive error strings
a construction run reports — every star-field error then every spot-field
error, in field order, independently of one another. -/
def specErrorBatch (pf : String → Option ℚ) (pn : String → Option ℕ)
    (pb : String → Option Bool) (cfg : Config) (filename : String) :
    List String :=
  match cfg.findSection "star" with
  | none => []
  | some starSec =>
    fieldErrors pf starSec filename "star" "radius" ++
    fieldErrors pf starSec filename "star" "period" ++
    fieldErrors pf starSec filename "star" "inclination" ++
    fieldErrors pf starSec filename "star" "Tstar" ++
    fieldErrors pf starSec filename "star" "Tdiff_spot" ++
    fieldErrors pf starSec filename "star" "limb1" ++
    fieldErrors pf starSec filename "star" "limb2" ++
    fieldErrors pf starSec filename "star" "fillfactor" ++
    fieldErrors pn starSec filename "star" "grid_resolution" ++
    ((cfg.sections.filter (fun p => startsWithModel p.1 "spot")).map (fun p =>
      fieldErrors pf p.2 filename p.1 "latitude" ++
      fieldErrors pf p.2 filename p.1 "longitude" ++
      fieldErrors pf p.2 filename p.1 "size" ++
      fieldErrors pb p.2 filename p.1 "plage")).flatten

/-- A placeholder spot for total indexing (`List.getD`). -/
def defaultSpot : Spot :=
  { latitude := 0, longitude := 0, radius := 0, temperature := 0,
    plage := false, mortal := false, intensity := 0,
    time_appear := 0, time_disappear := 0 }

/-- Equality of every `Spot` field except the relative intensity (the one
field the observation pipelines overwrite). -/
def spotShapeEq (a b : Spot) : Prop :=
  a.latitude = b.latitude ∧ a.longitude = b.longitude ∧ a.radius = b.radius ∧
  a.temperature = b.temperature ∧ a.plage = b.plage ∧ a.mortal = b.mortal ∧
  a.time_appear = b.time_appear ∧ a.time_disappear = b.time_disappear

/-- The frame condition of the observation pipelines: the shared star and the
fill-factor target are unchanged, the spot collection only grows, and every
pre-existing spot is changed in at most its intensity field. -/
def framePreserved (sim sim' : Simulation) : Prop :=
  sim'.star = sim.star ∧
  sim'.dynamic_fill_factor = sim.dynamic_fill_factor ∧
  sim.spots.length ≤ sim'.spots.length ∧
  ∀ i, i < sim.spots.length →
    spotShapeEq (sim'.spots.getD i defaultSpot) (sim.spots.getD i defaultSpot)

/-- A concrete `f64`-field parser for closed instances: accepts the literals
the concrete configurations below use. -/
def parseQ : String → Option ℚ :=
  fun v => if v = "1.0" then some 1 else none

/-- A concrete `usize`-field parser for closed instances. -/
def parseN : String → Option ℕ :=
  fun v => if v = "100" then some 100 else none

/-- A concrete `bool`-field parser for closed instances. -/
def parseB : String → Option Bool :=
  fun v => if v = "false" then some false
    else if v = "true" then some true else none

/-- A well-formed "star" section with every field present and parsable by
`parseQ`/`parseN`. -/
def starSecOk : IniSection :=
  [("radius", "1.0"), ("period", "1.0"), ("inclination", "1.0"),
   ("Tstar", "1.0"), ("Tdiff_spot", "1.0"), ("limb1", "1.0"),
   ("limb2", "1.0"), ("fillfactor", "1.0"), ("grid_resolution", "100")]

/-- A configuration with two identical static spot sections (never
collision-tested by `Simulation::new`). -/
def cfgTwoSpots : Config :=
  { sections :=
      [("star", starSecOk),
       ("spot1", [("latitude", "1.0"), ("longitude", "1.0"),
                  ("size", "1.0"), ("plage", "false")]),
       ("spot2", [("latitude", "1.0"), ("longitude", "1.0"),
                  ("size", "1.0"), ("plage", "false")])] }

/-- The simulation `Simulation::new` builds from `cfgTwoSpots`. -/
def simTwoSpots : Simulation :=
  { star := StarData.ofConfig 1 1 100
    spots := [Spot.new (StarData.ofConfig 1 1 100) 1 1 1 false false,
              Spot.new (StarData.ofConfig 1 1 100) 1 1 1 false false]
    dynamic_fill_factor := 1
    generator := [] }

/-- A configuration whose "star" section is missing while a spot section
carries a further, never-reported field error. -/
def cfgNoStar : Config :=
  { sections := [("spot1", [("latitude", "bogus")])] }

/-- A configuration whose "star" section is present but misses its `radius`
field and carries an unparsable `period`. -/
def cfgTwoErrors : Config :=
  { sections :=
      [("star", [("period", "fast"), ("inclination", "1.0"),
                 ("Tstar", "1.0"), ("Tdiff_spot", "1.0"), ("limb1", "1.0"),
                 ("limb2", "1.0"), ("fillfactor", "1.0"),
                 ("grid_resolution", "100")])] }

/-- A star-data record for closed run instances. -/
def starW : StarData :=
  { temperature := 2, spot_temp_diff := 1, flux_quiet := 4, zero_rv := 3,
    integrated_ccf := [10, 20], profile_quiet_rv := [5, 6],
    profile_active_len := 2, grid_size := 4 }

/-- A statically configured far-away spot for the acceptance-test instance. -/
def spotFar : Spot := Spot.new starW 100 100 (1 / 100) false false

/-- A run state with one static spot, a target slightly above its area, and a
sample stream whose first candidate is accepted. -/
def simAccept : Simulation :=
  { star := starW, spots := [spotFar],
    dynamic_fill_factor := 1 / 20000 + 1 / 100000000000,
    generator := [1, 1, 1] }

/-- The candidate the growth loop accepts when run from `simAccept` at time
0: size `1 · 9.4e-6`, latitude 1, longitude 1, window offset by 0. -/
def spotAccepted : Spot :=
  { Spot.new starW 1 1 (94 / 10000000) false true with
    time_appear := 0 + 0, time_disappear := mortalLifetime + 0 }

/-- The state after the accepting run from `simAccept`. -/
def simAccepted : Simulation :=
  { simAccept with spots := [spotFar, spotAccepted], generator := [] }

/-- A dynamically created spot (as accepted at time 0) used by the coverage
monotonicity counterexample: alive on `[0, 15)`, expired by time 20. -/
def spotDyn : Spot := Spot.new starW 1 1 (1 / 2000) false true

/-- A run state holding only `spotDyn` with target 0. -/
def simDyn : Simulation :=
  { star := starW, spots := [spotDyn], dynamic_fill_factor := 0,
    generator := [] }

/-- A small run state with one always-alive static spot and target 0, for
closed instances of the observation pipelines. -/
def simW : Simulation :=
  { star := starW, spots := [Spot.new starW 1 1 (1 / 2) false false],
    dynamic_fill_factor := 0, generator := [] }

/-- The spot of `simW` after the intensity update for the band `[1, 2]`. -/
def spotWupd : Spot := { Spot.new starW 1 1 (1 / 2) false false with
  intensity := 4 / 5 }

/-- The state `observe_flux`/`observe_rv` leave behind when run on `simW`
over the band `[1, 2]`. -/
def simWobs : Simulation := { simW with spots := [spotWupd] }

/-- The spot of `simW` after the intensity update for the hard-coded visible
band of `draw_rgba`. -/
def spotWdraw : Spot := { Spot.new starW 1 1 (1 / 2) false false with
  intensity := 10000011 / 20000011 }

/-- The state `draw_rgba` leaves behind when run on `simW`. -/
def simWdraw : Simulation := { simW with spots := [spotWdraw] }

/-- The spot of `simDyn` after the intensity update for the band `[1, 2]`. -/
def spotDynUpd : Spot := { Spot.new starW 1 1 (1 / 2000) false true with
  intensity := 4 / 5 }

/-- The state `observe_flux` leaves behind when run on `simDyn` over the
band `[1, 2]`. -/
def simDynObs : Simulation := { simDyn with spots := [spotDynUpd] }

/-- The observation `observe_rv` returns when run on `simW` at time 3 over
the band `[1, 2]` with the concrete external stand-ins below. -/
def obsW : List Observation := [{ rv := 56 / 5, bisector := [3, 14] }]

/-- A concrete blackbody-integral stand-in for closed instances. -/
def planckW : ℚ → ℚ → ℚ → ℚ := fun temp wmin wmax => temp + wmin + wmax

/-- A concrete `get_flux` stand-in vanishing on dead spots, for closed
instances. -/
def getFluxW : Spot → ℚ → ℚ :=
  fun s t => if s.alive t then s.intensity + s.radius else 0

/-- A concrete `get_ccf` stand-in producing profiles of length 2, for closed
instances. -/
def getCcfW : Spot → ℚ → List ℚ := fun s t => [s.intensity, t]

/-- A concrete Gaussian-fit stand-in, for closed instances. -/
def fitRvW : List ℚ → List ℚ → ℚ := fun rv net => rv.getD 0 0 + net.getD 0 0

/-- A concrete bisector-extraction stand-in, for closed instances. -/
def computeBisectorW : List ℚ → List ℚ → List ℚ :=
  fun rv net => [rv.getD 1 0, net.getD 1 0]

noncomputable section RealLevel

/-- Integration bounds (`bounds.rs::Bounds`, missing from the provided files;
modelled from the spec as the plain pair of bounds the chord integral
receives). -/
structure Bounds where
  lower : ℝ
  upper : ℝ

/-- The file-local `min` of `star.rs:119`-`124`: `if a < b { a } else { b }`. -/
def fmin (a b : ℝ) : ℝ := if a < b then a else b

/-- Machine epsilon of `f64` (`std::f64::EPSILON` = 2⁻⁵²), as an exact real. -/
def f64Epsilon : ℝ := 1 / 2 ^ 52

/-- The closed-form quadratic limb-darkening chord integral
(`star.rs:126`-`155`): an exact zero for degenerate bounds, otherwise the
antiderivative expression in `z`, `y` and the two limb coefficients with its
arctangent term, evaluated at the two bounds. -/
def limb_integral (z_bounds : Bounds) (y limb_linear limb_quadratic : ℝ) : ℝ :=
  if |z_bounds.lower - z_bounds.upper| < f64Epsilon then 0
  else
    let z_upper := z_bounds.upper
    let z_lower := z_bounds.lower
    let x_upper := Real.sqrt (1 - fmin (z_upper * z_upper + y * y) 1)
    let x_lower := Real.sqrt (1 - fmin (z_lower * z_lower + y * y) 1)
    1 / 6 *
        (z_upper *
            (3 * limb_linear * (x_upper - 2) +
              2 * (limb_quadratic * (3 * x_upper + 3 * y * y + z_upper * z_upper - 6) + 3)) -
          3 * (y * y - 1) * (limb_linear + 2 * limb_quadratic) *
            Real.arctan (z_upper / x_upper)) -
      1 / 6 *
        (z_lower *
            (3 * limb_linear * (x_lower - 2) +
              2 * (limb_quadratic * (3 * x_lower + 3 * y * y + z_lower * z_lower - 6) + 3)) -
          3 * (y * y - 1) * (limb_linear + 2 * limb_quadratic) *
            Real.arctan (z_lower / x_lower))

/-- A Gaussian fit result (`fit_rv.rs::Gaussian`, an external interface). -/
structure Gaussian where
  height : ℝ
  centroid : ℝ
  width : ℝ
  offset : ℝ

/-- A line profile (`profile.rs::Profile`, an external interface): a velocity
grid and an amplitude array. -/
structure Profile where
  rv : List ℝ
  ccf : List ℝ

/-- The external collaborators `Star::new` consumes: the build-time constant
arrays `rv()`, `ccf_quiet()`, `ccf_active()`, the Doppler shift/resample
operation of `Profile`, the nonlinear Gaussian fit `fit_rv`, and the
profile normalization `simulation::normalize` (repository code missing from
the provided files, modelled from the spec as an unconstrained list map). -/
structure StarExt where
  rvData : List ℝ
  ccfQuietData : List ℝ
  ccfActiveData : List ℝ
  shift : Profile → ℝ → List ℝ
  fitRv : List ℝ → List ℝ → Gaussian → Gaussian
  normalizeFn : List ℝ → List ℝ

/-- `star.rs:11`: `SOLAR_RADIUS = 696000.0` (km). -/
def SOLAR_RADIUS : ℝ := 696000

/-- `star.rs:12`: `DAYS_TO_SECONDS = 86400.0`. -/
def DAYS_TO_SECONDS : ℝ := 86400

/-- The star model of `star.rs::Star`, over `ℝ`. -/
structure Star where
  period : ℝ
  inclination : ℝ
  temperature : ℝ
  spot_temp_diff : ℝ
  limb_linear : ℝ
  limb_quadratic : ℝ
  grid_size : ℕ
  intensity : ℝ
  flux_quiet : ℝ
  zero_rv : ℝ
  equatorial_velocity : ℝ
  integrated_ccf : List ℝ
  fit_result : Gaussian
  profile_active : Profile
  profile_quiet : Profile

/-- One accumulation step of the disk integration (`star.rs:65`-`67`):
`integrated_ccf[i] += ccf_shifted[i] * limb_integral` for every index of the
accumulator. -/
def accumCcf (acc shifted : List ℝ) (li : ℝ) : List ℝ :=
  List.zipWith (fun a c => a + c * li) acc shifted

/-- `Star::new` (`star.rs:33`-`112`): the equatorial velocity from radius (in
solar radii), period (in days) and the raw inclination argument; the disk
integration of the shifted quiet profile weighted by the limb-darkening
chord integral over `grid_size + 1` ordinates; the accumulated quiet flux;
the normalized profile's initial Gaussian guess and fit, whose centroid is
the velocity zero-point.  The stored `inclination` field is the argument
converted from degrees to radians (`star.rs:97`), while the sine in the
equatorial velocity is taken of the unconverted argument (`star.rs:47`). -/
def Star.new (ext : StarExt) (radius period inclination temperature
    spot_temp_diff limb_linear limb_quadratic : ℝ) (grid_size : ℕ) : Star :=
  let edge_velocity := (2 * Real.pi * radius * SOLAR_RADIUS) /
    (period * DAYS_TO_SECONDS)
  let equatorial_velocity := edge_velocity * Real.sin inclination
  let profile_quiet : Profile := ⟨ext.rvData, ext.ccfQuietData⟩
  let profile_active : Profile := ⟨ext.rvData, ext.ccfActiveData⟩
  let grid_step := 2 / (grid_size : ℝ)
  let ys := (List.range (grid_size + 1)).map (fun a => (a : ℝ) * grid_step - 1)
  let step := fun (acc : List ℝ × ℝ) (y : ℝ) =>
    let ccf_shifted := ext.shift profile_quiet (y * equatorial_velocity)
    let z_bound := Real.sqrt (1 - y * y)
    let li := limb_integral ⟨-z_bound, z_bound⟩ y limb_linear limb_quadratic
    (accumCcf acc.1 ccf_shifted li, acc.2 + li)
  let integrated := ys.foldl step
    (List.replicate ext.ccfQuietData.length (0 : ℝ), (0 : ℝ))
  let normalized := ext.normalizeFn integrated.1
  let guess : Gaussian :=
    { height := normalized.getD (normalized.length / 2) 0 - normalized.getD 0 0
      centroid := profile_quiet.rv.getD (normalized.length / 2) 0
      width := 2.71
      offset := normalized.getD 0 0 }
  let initial_fit := ext.fitRv ext.rvData normalized guess
  { period := period
    inclination := inclination * Real.pi / 180
    temperature := temperature
    spot_temp_diff := spot_temp_diff
    limb_linear := limb_linear
    limb_quadratic := limb_quadratic
    grid_size := grid_size
    intensity := 0
    flux_quiet := integrated.2
    zero_rv := initial_fit.centroid
    equatorial_velocity := equatorial_velocity
    integrated_ccf := integrated.1
    fit_result := initial_fit
    profile_active := profile_active
    profile_quiet := profile_quiet }

/-- A concrete instance of the external collaborators, used to state closed
facts about `Star.new` (their values do not enter the stated facts). -/
def extTrivial : StarExt :=
  { rvData := []
    ccfQuietData := []
    ccfActiveData := []
    shift := fun _ _ => []
    fitRv := fun _ _ g => g
    normalizeFn := fun l => l }

end RealLevel

/-! ## Theorems -/

/-! ### Helper lemmas -/

theorem alive_eq_true_iff (s : Spot) (t : ℚ) :
    s.alive t = true ↔ s.time_appear ≤ t ∧ t < s.time_disappear := by
  simp [Spot.alive]

theorem currentFillFactor_nonneg (spots : List Spot) (t : ℚ) :
    0 ≤ currentFillFactor spots t := by
  apply List.sum_nonneg
  intro x hx
  simp only [List.mem_map] at hx
  obtain ⟨s, _, rfl⟩ := hx
  exact div_nonneg (mul_self_nonneg _) (by norm_num)

theorem currentFillFactor_append_one (l : List Spot) (s : Spot) (t : ℚ) :
    currentFillFactor (l ++ [s]) t =
      currentFillFactor l t +
        (if s.alive t = true then s.radius * s.radius / 2 else 0) := by
  unfold currentFillFactor
  rw [List.filter_append, List.map_append, List.sum_append]
  by_cases h : s.alive t = true <;> simp [h]

theorem drawFill_sound (gen : List ℚ) (s : ℚ) (rest : List ℚ)
    (hpos : ∀ v ∈ gen, 0 < v) (h : drawFill gen = some (s, rest)) :
    0 < s ∧ s < 1 / 1000 ∧ ∀ v ∈ rest, 0 < v := by
  induction gen with
  | nil => simp [drawFill] at h
  | cons v vs ih =>
    rw [drawFill] at h
    by_cases hlt : v * (94 / 10000000) < 1 / 1000
    · simp only [hlt, if_true, Option.some.injEq, Prod.mk.injEq] at h
      obtain ⟨rfl, rfl⟩ := h
      have hv : 0 < v := hpos v (List.mem_cons_self _ _)
      refine ⟨by positivity, hlt, fun w hw => hpos w (List.mem_cons_of_mem _ hw)⟩
    · simp only [hlt, if_false] at h
      exact ih (fun w hw => hpos w (List.mem_cons_of_mem _ hw)) h

theorem checkFillFactorLoop_of_le (star : StarData) (target time : ℚ)
    (fuel : ℕ) (spots : List Spot) (current : ℚ) (gen : List ℚ)
    (h : target ≤ current) :
    checkFillFactorLoop star target time fuel spots current gen =
      some (spots, gen) := by
  cases fuel <;> simp [checkFillFactorLoop, h]

theorem checkFillFactorLoop_spots_grow (star : StarData) (target time : ℚ) :
    ∀ (fuel : ℕ) (spots : List Spot) (current : ℚ) (gen : List ℚ)
      (spots2 : List Spot) (gen2 : List ℚ),
      checkFillFactorLoop star target time fuel spots current gen =
        some (spots2, gen2) →
      ∃ new, spots2 = spots ++ new := by
  intro fuel
  induction fuel with
  | zero =>
    intro spots current gen spots2 gen2 h
    simp only [checkFillFactorLoop] at h
    split at h
    · obtain ⟨rfl, rfl⟩ : spots = spots2 ∧ gen = gen2 := by
        simpa using h
      exact ⟨[], by simp⟩
    · exact absurd h (by simp)
  | succ n ih =>
    intro spots current gen spots2 gen2 h
    simp only [checkFillFactorLoop] at h
    split at h
    · obtain ⟨rfl, rfl⟩ : spots = spots2 ∧ gen = gen2 := by
        simpa using h
      exact ⟨[], by simp⟩
    · split at h
      · exact absurd h (by simp)
      · split at h
        · split at h
          · obtain ⟨new, rfl⟩ := ih _ _ _ _ _ h
            exact ⟨new, rfl⟩
          · obtain ⟨new, rfl⟩ := ih _ _ _ _ _ h
            exact ⟨_, List.append_assoc _ _ _⟩
        · exact absurd h (by simp)

theorem newSpotOffset_alive (star : StarData) (lat long fill time : ℚ) :
    Spot.alive { Spot.new star lat long fill false true with
      time_appear := (Spot.new star lat long fill false true).time_appear + time
      time_disappear :=
        (Spot.new star lat long fill false true).time_disappear + time } time =
      true := by
  norm_num [Spot.new, Spot.alive, mortalLifetime]

theorem checkFillFactorLoop_coverage (star : StarData) (target time : ℚ) :
    ∀ (fuel : ℕ) (spots : List Spot) (current : ℚ) (gen : List ℚ)
      (spots2 : List Spot) (gen2 : List ℚ),
      current = currentFillFactor spots time →
      checkFillFactorLoop star target time fuel spots current gen =
        some (spots2, gen2) →
      target ≤ currentFillFactor spots2 time := by
  intro fuel
  induction fuel with
  | zero =>
    intro spots current gen spots2 gen2 heq h
    simp only [checkFillFactorLoop] at h
    split at h
    next hg =>
      obtain ⟨rfl, rfl⟩ : spots = spots2 ∧ gen = gen2 := by simpa using h
      exact heq ▸ hg
    next hg => exact absurd h (by simp)
  | succ n ih =>
    intro spots current gen spots2 gen2 heq h
    simp only [checkFillFactorLoop] at h
    split at h
    next hg =>
      obtain ⟨rfl, rfl⟩ : spots = spots2 ∧ gen = gen2 := by simpa using h
      exact heq ▸ hg
    next hg =>
      split at h
      · exact absurd h (by simp)
      next newFill gen1 hdraw =>
        split at h
        next lat long gen3 =>
          split at h
          next hcol => exact ih _ _ _ _ _ heq h
          next hcol =>
            refine ih _ _ _ _ _ ?_ h
            rw [currentFillFactor_append_one, newSpotOffset_alive, if_pos rfl,
              ← heq]
        next => exact absurd h (by simp)

theorem checkFillFactorLoop_overshoot (star : StarData) (target time : ℚ) :
    ∀ (fuel : ℕ) (spots : List Spot) (current : ℚ) (gen : List ℚ)
      (spots2 : List Spot) (gen2 : List ℚ),
      current = currentFillFactor spots time →
      (∀ v ∈ gen, 0 < v) →
      current < target + 1 / 2000000 →
      checkFillFactorLoop star target time fuel spots current gen =
        some (spots2, gen2) →
      currentFillFactor spots2 time < target + 1 / 2000000 := by
  intro fuel
  induction fuel with
  | zero =>
    intro spots current gen spots2 gen2 heq hgen hub h
    simp only [checkFillFactorLoop] at h
    split at h
    next hg =>
      obtain ⟨rfl, rfl⟩ : spots = spots2 ∧ gen = gen2 := by simpa using h
      exact heq ▸ hub
    next hg => exact absurd h (by simp)
  | succ n ih =>
    intro spots current gen spots2 gen2 heq hgen hub h
    simp only [checkFillFactorLoop] at h
    split at h
    next hg =>
      obtain ⟨rfl, rfl⟩ : spots = spots2 ∧ gen = gen2 := by simpa using h
      exact heq ▸ hub
    next hg =>
      split at h
      · exact absurd h (by simp)
      next newFill gen1 hdraw =>
        obtain ⟨hpos, hsmall, hrest⟩ := drawFill_sound _ _ _ hgen hdraw
        split at h
        next lat long gen3 =>
          have hgen3 : ∀ v ∈ gen3, 0 < v := fun v hv =>
            hrest v (by simp [hv])
          split at h
          next hcol => exact ih _ _ _ _ _ heq hgen3 hub h
          next hcol =>
            have hr : (Spot.new star lat long newFill false true).radius =
                newFill := rfl
            refine ih _ _ _ _ _ ?_ hgen3 ?_ h
            · rw [currentFillFactor_append_one, newSpotOffset_alive, if_pos rfl,
                ← heq]
            · rw [hr]
              have hcur : current < target := lt_of_not_le hg
              have hsq : newFill * newFill < 1 / 1000000 := by
                have := mul_lt_mul'' hsmall hsmall (le_of_lt hpos) (le_of_lt hpos)
                linarith [this]
              linarith
        next => exact absurd h (by simp)

theorem checkFillFactorLoop_acceptance (star : StarData) (target time : ℚ) :
    ∀ (fuel : ℕ) (spots : List Spot) (current : ℚ) (gen : List ℚ)
      (spots2 : List Spot) (gen2 : List ℚ),
      checkFillFactorLoop star target time fuel spots current gen =
        some (spots2, gen2) →
      ∀ pre c post, spots2 = spots ++ pre ++ c :: post →
        ∀ s ∈ spots ++ pre,
          (s.alive c.time_appear = true ∨ s.alive c.time_disappear = true) →
          c.collides_with s = false := by
  intro fuel
  induction fuel with
  | zero =>
    intro spots current gen spots2 gen2 h pre c post hdec s hs halive
    simp only [checkFillFactorLoop] at h
    split at h
    next hg =>
      obtain ⟨rfl, rfl⟩ : spots = spots2 ∧ gen = gen2 := by simpa using h
      have hlen := congrArg List.length hdec
      simp [List.length_append] at hlen
    next hg => exact absurd h (by simp)
  | succ n ih =>
    intro spots current gen spots2 gen2 h pre c post hdec s hs halive
    simp only [checkFillFactorLoop] at h
    split at h
    next hg =>
      obtain ⟨rfl, rfl⟩ : spots = spots2 ∧ gen = gen2 := by simpa using h
      have hlen := congrArg List.length hdec
      simp [List.length_append] at hlen
    next hg =>
      split at h
      · exact absurd h (by simp)
      next newFill gen1 hdraw =>
        split at h
        next lat long gen3 =>
          split at h
          next hcol => exact ih _ _ _ _ _ h pre c post hdec s hs halive
          next hcol =>
            obtain ⟨new, hnew⟩ := checkFillFactorLoop_spots_grow _ _ _ _ _ _ _ _ _ h
            have hx := hnew.symm.trans hdec
            rw [List.append_assoc, List.append_assoc] at hx
            have hy := List.append_cancel_left hx
            simp only [List.singleton_append] at hy
            cases pre with
            | nil =>
              simp only [List.nil_append] at hy
              injection hy with h1 h2
              subst h1
              have hcol' := (Bool.not_eq_true _).mp hcol
              rw [List.any_eq_false] at hcol'
              simp only [List.append_nil] at hs
              have hmem : s ∈ List.filter (fun x =>
                  x.alive ((Spot.new star lat long newFill false true).time_appear + time) ||
                  x.alive ((Spot.new star lat long newFill false true).time_disappear + time))
                  spots := by
                rw [List.mem_filter]
                refine ⟨hs, ?_⟩
                rw [Bool.or_eq_true]
                rcases halive with h1 | h1
                · exact Or.inl h1
                · exact Or.inr h1
              have := hcol' s hmem
              simpa using this
            | cons p pre2 =>
              simp only [List.cons_append] at hy
              injection hy with h1 h2
              subst h1
              refine ih _ _ _ _ _ h pre2 c post ?_ s ?_ halive
              · rw [hnew, h2]
                simp [List.append_assoc]
              · simp only [List.cons_append, List.mem_append, List.mem_cons] at hs
                simp only [List.append_assoc, List.singleton_append,
                  List.mem_append, List.mem_cons]
                tauto
        next => exact absurd h (by simp)

theorem check_fill_factor_extends (sim : Simulation) (t : ℚ) (fuel : ℕ)
    (sim' : Simulation) (h : sim.check_fill_factor t fuel = some sim') :
    sim'.star = sim.star ∧
    sim'.dynamic_fill_factor = sim.dynamic_fill_factor ∧
    ∃ new, sim'.spots = sim.spots ++ new := by
  unfold Simulation.check_fill_factor at h
  split at h
  · exact absurd h (by simp)
  next spots gen heq =>
    have hsim' : sim' = { sim with spots := spots, generator := gen } := by
      injection h with h'
      exact h'.symm
    subst hsim'
    exact ⟨rfl, rfl, checkFillFactorLoop_spots_grow _ _ _ _ _ _ _ _ _ heq⟩

theorem foldl_check_none (ts : List ℚ) (fuel : ℕ) :
    ts.foldl (fun (acc : Option Simulation) (t : ℚ) =>
      acc.bind (fun s => s.check_fill_factor t fuel)) none = none := by
  induction ts <;> simp [List.foldl_cons, *]

theorem checkAll_extends (time : List ℚ) :
    ∀ (sim : Simulation) (fuel : ℕ) (sim' : Simulation),
      sim.checkAll time fuel = some sim' →
      sim'.star = sim.star ∧
      sim'.dynamic_fill_factor = sim.dynamic_fill_factor ∧
      ∃ new, sim'.spots = sim.spots ++ new := by
  induction time with
  | nil =>
    intro sim fuel sim' h
    simp only [Simulation.checkAll, List.foldl_nil, Option.some.injEq] at h
    subst h
    exact ⟨rfl, rfl, [], by simp⟩
  | cons t ts ih =>
    intro sim fuel sim' h
    rw [Simulation.checkAll, List.foldl_cons] at h
    cases hc : sim.check_fill_factor t fuel with
    | none =>
      rw [show ((some sim).bind (fun s => s.check_fill_factor t fuel)) =
        sim.check_fill_factor t fuel from rfl, hc, foldl_check_none] at h
      exact absurd h (by simp)
    | some sim1 =>
      rw [show ((some sim).bind (fun s => s.check_fill_factor t fuel)) =
        sim.check_fill_factor t fuel from rfl, hc] at h
      obtain ⟨e1, e2, new1, hs1⟩ := check_fill_factor_extends _ _ _ _ hc
      obtain ⟨f1, f2, new2, hs2⟩ := ih _ _ _ h
      exact ⟨f1.trans e1, f2.trans e2, new1 ++ new2,
        by rw [hs2, hs1, List.append_assoc]⟩

theorem check_fill_factor_nopGrowth (sim : Simulation) (t : ℚ) (fuel : ℕ)
    (h : sim.dynamic_fill_factor ≤ 0) :
    sim.check_fill_factor t fuel = some sim := by
  unfold Simulation.check_fill_factor
  rw [checkFillFactorLoop_of_le _ _ _ _ _ _ _
    (le_trans h (currentFillFactor_nonneg _ _))]

theorem checkAll_nopGrowth (time : List ℚ) (sim : Simulation) (fuel : ℕ)
    (h : sim.dynamic_fill_factor ≤ 0) :
    sim.checkAll time fuel = some sim := by
  induction time with
  | nil => rfl
  | cons t ts ih =>
    rw [Simulation.checkAll, List.foldl_cons,
      show ((some sim).bind (fun s => s.check_fill_factor t fuel)) =
        sim.check_fill_factor t fuel from rfl,
      check_fill_factor_nopGrowth _ _ _ h]
    exact ih

/-! ### Claim theorems for the maintenance process -/

/-- C4 (amended): after a returned `check_fill_factor(t)` pass over a
positive sample stream, the summed area of the regions alive at `t` is at
least the configured dynamic fill factor; when the pass entered its growth
loop (entry coverage below the target) the final coverage also overshoots
the target by less than one accepted candidate's maximal area
`0.001² / 2 = 1/2000000`.  The non-decreasing-across-times part of the
original claim is false — see the counterexample. -/
theorem check_fill_factor_reaches_target (sim : Simulation) (t : ℚ)
    (fuel : ℕ) (sim' : Simulation)
    (hrun : sim.check_fill_factor t fuel = some sim')
    (hgen : ∀ v ∈ sim.generator, 0 < v) :
    sim.dynamic_fill_factor ≤ currentFillFactor sim'.spots t ∧
    (currentFillFactor sim.spots t < sim.dynamic_fill_factor →
      currentFillFactor sim'.spots t <
        sim.dynamic_fill_factor + 1 / 2000000) := by
  unfold Simulation.check_fill_factor at hrun
  split at hrun
  · exact absurd hrun (by simp)
  next spots gen heq =>
    have hsim' : sim' = { sim with spots := spots, generator := gen } := by
      injection hrun with h'
      exact h'.symm
    subst hsim'
    constructor
    · exact checkFillFactorLoop_coverage _ _ _ _ _ _ _ _ _ rfl heq
    · intro hlt
      refine checkFillFactorLoop_overshoot _ _ _ _ _ _ _ _ _ rfl hgen ?_ heq
      calc currentFillFactor sim.spots t < sim.dynamic_fill_factor := hlt
        _ < sim.dynamic_fill_factor + 1 / 2000000 := by norm_num

/-- C4 counterexample: a run holding one dynamically created region (alive on
`[0, 15)`) with target 0: both maintenance passes return unchanged, yet the
covered area at the later processed time 20 is strictly below the covered
area at time 0 — the claimed monotonicity across increasing times fails. -/
theorem coverage_monotonicity_counterexample :
    simDyn.check_fill_factor 0 1 = some simDyn ∧
    simDyn.check_fill_factor 20 1 = some simDyn ∧
    currentFillFactor simDyn.spots 20 < currentFillFactor simDyn.spots 0 := by
  refine ⟨?_, ?_, ?_⟩ <;>
    norm_num [Simulation.check_fill_factor, checkFillFactorLoop,
      currentFillFactor, simDyn, spotDyn, Spot.new, Spot.alive, starW,
      mortalLifetime]

/-- C4 witness: the accepting run from `simAccept` at time 0. -/
theorem check_fill_factor_reaches_target_witness :
    (∀ v ∈ simAccept.generator, 0 < v) ∧
    (simAccept.dynamic_fill_factor ≤ currentFillFactor simAccepted.spots 0 ∧
      (currentFillFactor simAccept.spots 0 < simAccept.dynamic_fill_factor →
        currentFillFactor simAccepted.spots 0 <
          simAccept.dynamic_fill_factor + 1 / 2000000)) := by
  have hgen : ∀ v ∈ simAccept.generator, 0 < v := by
    intro v hv
    simp only [simAccept, List.mem_cons, List.not_mem_nil, or_false] at hv
    rcases hv with rfl | rfl | rfl <;> norm_num
  have hrun : simAccept.check_fill_factor 0 2 = some simAccepted := by
    have hc : currentFillFactor simAccept.spots 0 = 1 / 20000 := by
      norm_num [currentFillFactor, simAccept, spotFar, Spot.new, staticSpan,
        Spot.alive, starW]
    rw [Simulation.check_fill_factor, hc]
    norm_num [checkFillFactorLoop, drawFill, Spot.new, Spot.alive,
      Spot.collides_with, spotFar, starW, mortalLifetime, staticSpan,
      simAccept, simAccepted, spotAccepted]
  exact ⟨hgen, check_fill_factor_reaches_target simAccept 0 2 simAccepted
    hrun hgen⟩

/-- C3 (amended): every dynamically grown candidate is accepted only after
the collision test against every existing region alive at the candidate's
appearance time or its disappearance time: whenever a returned maintenance
pass has appended a candidate `c`, `c` does not collide with any earlier
region in the collection that is alive at either endpoint of `c`'s lifetime
window.  The unconditional pairwise no-overlap invariant of the original
claim is false for statically configured regions — see the counterexample. -/
theorem check_fill_factor_acceptance_test (sim : Simulation) (t : ℚ)
    (fuel : ℕ) (sim' : Simulation)
    (hrun : sim.check_fill_factor t fuel = some sim') :
    ∀ pre c post, sim'.spots = sim.spots ++ pre ++ c :: post →
      ∀ s ∈ sim.spots ++ pre,
        (s.alive c.time_appear = true ∨ s.alive c.time_disappear = true) →
        c.collides_with s = false := by
  unfold Simulation.check_fill_factor at hrun
  split at hrun
  · exact absurd hrun (by simp)
  next spots gen heq =>
    have hsim' : sim' = { sim with spots := spots, generator := gen } := by
      injection hrun with h'
      exact h'.symm
    subst hsim'
    exact checkFillFactorLoop_acceptance _ _ _ _ _ _ _ _ _ heq

/-- C3 witness: in the accepting run from `simAccept`, the accepted candidate
was collision-tested against the static far-away region, which is alive at
the candidate's appearance time; the test is negative. -/
theorem check_fill_factor_acceptance_test_witness :
    Spot.collides_with spotAccepted spotFar = false := by
  have hrun : simAccept.check_fill_factor 0 2 = some simAccepted := by
    have hc : currentFillFactor simAccept.spots 0 = 1 / 20000 := by
      norm_num [currentFillFactor, simAccept, spotFar, Spot.new, staticSpan,
        Spot.alive, starW]
    rw [Simulation.check_fill_factor, hc]
    norm_num [checkFillFactorLoop, drawFill, Spot.new, Spot.alive,
      Spot.collides_with, spotFar, starW, mortalLifetime, staticSpan,
      simAccept, simAccepted, spotAccepted]
  exact check_fill_factor_acceptance_test simAccept 0 2 simAccepted hrun
    [] spotAccepted [] (by simp [simAccepted, simAccept])
    spotFar (by simp [simAccept])
    (Or.inl (by norm_num [Spot.alive, spotFar, spotAccepted, Spot.new,
      staticSpan, starW]))

/-- C3 counterexample: `Simulation::new` never collision-tests statically
configured regions; from a configuration with two identical spot sections it
builds a collection whose two regions are simultaneously alive (at time 0)
and collide. -/
theorem no_overlap_invariant_counterexample :
    Simulation.new parseQ parseN parseB cfgTwoSpots "sun.cfg" [] =
      NewOutcome.ok simTwoSpots ∧
    (simTwoSpots.spots.getD 0 defaultSpot).alive 0 = true ∧
    (simTwoSpots.spots.getD 1 defaultSpot).alive 0 = true ∧
    (simTwoSpots.spots.getD 0 defaultSpot).collides_with
      (simTwoSpots.spots.getD 1 defaultSpot) = true := by
  refine ⟨?_, ?_, ?_, ?_⟩
  · simp [Simulation.new, cfgTwoSpots, starSecOk, Config.findSection, getField,
      lookupField, parseQ, parseN, parseB, loadSpots, StarData.ofConfig,
      Spot.new, simTwoSpots, startsWithModel]
  · norm_num [simTwoSpots, Spot.new, Spot.alive, staticSpan, StarData.ofConfig]
  · norm_num [simTwoSpots, Spot.new, Spot.alive, staticSpan, StarData.ofConfig]
  · norm_num [simTwoSpots, Spot.new, Spot.collides_with, StarData.ofConfig]

/-! ### Claim theorems for the observation pipelines -/

theorem sum_map_eq_sum_filter (l : List Spot) (p : Spot → Bool) (g : Spot → ℚ)
    (h : ∀ s ∈ l, p s = false → g s = 0) :
    (l.map g).sum = ((l.filter p).map g).sum := by
  induction l with
  | nil => rfl
  | cons a l ih =>
    have ih' := ih (fun s hs => h s (List.mem_cons_of_mem _ hs))
    cases hp : p a
    · simp [List.filter_cons, hp, h a (List.mem_cons_self _ _) hp, ih']
    · simp [List.filter_cons, hp, ih']

/-- C1: for every time in the batch, a returned `observe_flux` call yields
`(flux_quiet − S) / flux_quiet` where `S` sums the flux contributions of
exactly the regions alive at that time (stated under the spec's contract
that a region's `get_flux` vanishes when the region is not alive, which is
what makes the code's unfiltered sum an alive-only sum); in particular the
value is exactly 1 at every time where no region is alive, for a nonzero
quiet flux. -/
theorem observe_flux_alive_formula (planck : ℚ → ℚ → ℚ → ℚ)
    (getFlux : Spot → ℚ → ℚ) (sim : Simulation) (time : List ℚ)
    (wmin wmax : ℚ) (fuel : ℕ) (results : List ℚ) (sim' : Simulation)
    (hrun : Simulation.observe_flux planck getFlux sim time wmin wmax fuel =
      some (results, sim'))
    (hdead : ∀ s t, s.alive t = false → getFlux s t = 0) :
    results = time.map (fun t =>
      (sim'.star.flux_quiet -
        ((sim'.spots.filter (fun s => s.alive t)).map
          (fun s => getFlux s t)).sum) / sim'.star.flux_quiet) ∧
    ∀ i, i < time.length →
      sim'.spots.filter (fun s => s.alive (time.getD i 0)) = [] →
      sim'.star.flux_quiet ≠ 0 →
      results.getD i 0 = 1 := by
  unfold Simulation.observe_flux at hrun
  dsimp only [] at hrun
  split at hrun
  · exact absurd hrun (by simp)
  next sim2 hchk =>
    rw [Option.some.injEq, Prod.mk.injEq] at hrun
    obtain ⟨hres, hsim⟩ := hrun
    subst hsim
    subst hres
    constructor
    · apply List.map_congr_left
      intro t _
      rw [sum_map_eq_sum_filter _ (fun s => s.alive t) _
        (fun s _ hf => hdead s t hf)]
    · intro i hi hfilter hfq
      have hml : i < (time.map (fun t =>
          (sim2.star.flux_quiet - (sim2.spots.map (fun s => getFlux s t)).sum) /
            sim2.star.flux_quiet)).length := by
        simpa using hi
      rw [List.getD_eq_getElem _ _ hml, List.getElem_map]
      rw [sum_map_eq_sum_filter _ (fun s => s.alive (time[i])) _
        (fun s _ hf => hdead s _ hf)]
      have : time[i] = time.getD i 0 := (List.getD_eq_getElem _ _ hi).symm
      rw [this, hfilter]
      simp [div_self hfq]

/-- Pointwise idempotence of the per-band intensity update: updating a spot
twice for the same band is the same as updating once (the update reads only
the unchanged temperature field). -/
theorem updateIntensity_idem (planck : ℚ → ℚ → ℚ → ℚ) (wmin wmax si : ℚ)
    (s : Spot) :
    updateIntensity planck wmin wmax si
      (updateIntensity planck wmin wmax si s) =
      updateIntensity planck wmin wmax si s := rfl

theorem map_updateIntensity_idem (planck : ℚ → ℚ → ℚ → ℚ) (wmin wmax si : ℚ)
    (l : List Spot) :
    (l.map (updateIntensity planck wmin wmax si)).map
        (updateIntensity planck wmin wmax si) =
      l.map (updateIntensity planck wmin wmax si) := by
  induction l with
  | nil => rfl
  | cons a l ih => simp [updateIntensity_idem, ih]

/-- With the fill-factor target at (or below) zero, `observe_flux` is total
and pure: it returns the per-time flux of the intensity-updated collection
and the updated state, with no dynamic growth. -/
theorem observe_flux_fill0_eq (planck : ℚ → ℚ → ℚ → ℚ)
    (getFlux : Spot → ℚ → ℚ) (sim : Simulation) (time : List ℚ)
    (wmin wmax : ℚ) (fuel : ℕ)
    (h0 : sim.dynamic_fill_factor ≤ 0) :
    Simulation.observe_flux planck getFlux sim time wmin wmax fuel =
      some (time.map (fun t =>
        (sim.star.flux_quiet -
          ((sim.spots.map (updateIntensity planck wmin wmax
              (planck sim.star.temperature wmin wmax))).map
            (fun s => getFlux s t)).sum) / sim.star.flux_quiet),
        { sim with spots := sim.spots.map (updateIntensity planck wmin wmax
            (planck sim.star.temperature wmin wmax)) }) := by
  unfold Simulation.observe_flux
  dsimp only []
  rw [checkAll_nopGrowth time
    { sim with spots := sim.spots.map (updateIntensity planck wmin wmax
        (planck sim.star.temperature wmin wmax)) } fuel h0]

/-- C8: with the dynamic fill-factor target at 0 (no dynamic growth is ever
triggered, since covered area is nonnegative), two successive `observe_flux`
calls with the same time sequence and the same wavelength band return
identical result sequences. -/
theorem observe_flux_deterministic_fill0 (planck : ℚ → ℚ → ℚ → ℚ)
    (getFlux : Spot → ℚ → ℚ) (sim : Simulation) (time : List ℚ)
    (wmin wmax : ℚ) (fuel fuel2 : ℕ) (r1 r2 : List ℚ) (s1 s2 : Simulation)
    (h0 : sim.dynamic_fill_factor = 0)
    (h1 : Simulation.observe_flux planck getFlux sim time wmin wmax fuel =
      some (r1, s1))
    (h2 : Simulation.observe_flux planck getFlux s1 time wmin wmax fuel2 =
      some (r2, s2)) :
    r2 = r1 := by
  rw [observe_flux_fill0_eq _ _ _ _ _ _ _ (le_of_eq h0),
    Option.some.injEq, Prod.mk.injEq] at h1
  obtain ⟨hr1, hs1⟩ := h1
  rw [observe_flux_fill0_eq _ _ _ _ _ _ _
      (by rw [← hs1]; exact le_of_eq h0),
    Option.some.injEq, Prod.mk.injEq] at h2
  obtain ⟨hr2, hs2⟩ := h2
  rw [← hr1, ← hr2, ← hs1]
  simp only [map_updateIntensity_idem]

/-- C1 witness: running `observe_flux` on `simDyn` (one region alive on
`[0, 15)`, target 0) at times 3 and 20 over the band `[1, 2]` returns
`[6399/8000, 1]`; the formula holds, and at time 20 no region is alive and
the flux is exactly 1. -/
theorem observe_flux_alive_formula_witness :
    ([(6399 : ℚ) / 8000, 1] : List ℚ) = ([3, 20] : List ℚ).map (fun t =>
      (simDynObs.star.flux_quiet -
        ((simDynObs.spots.filter (fun s => s.alive t)).map
          (fun s => getFluxW s t)).sum) / simDynObs.star.flux_quiet) ∧
    ([(6399 : ℚ) / 8000, 1] : List ℚ).getD 1 0 = 1 := by
  have hrun : Simulation.observe_flux planckW getFluxW simDyn [3, 20] 1 2 1 =
      some ([6399 / 8000, 1], simDynObs) := by
    norm_num [Simulation.observe_flux, Simulation.checkAll,
      Simulation.check_fill_factor, checkFillFactorLoop, currentFillFactor,
      updateIntensity, planckW, getFluxW, simDyn, simDynObs, spotDyn,
      spotDynUpd, Spot.new, Spot.alive, starW, mortalLifetime]
  have hdead : ∀ s t, s.alive t = false → getFluxW s t = 0 := by
    intro s t h
    simp [getFluxW, h]
  have h := observe_flux_alive_formula planckW getFluxW simDyn [3, 20] 1 2 1
    _ _ hrun hdead
  refine ⟨h.1, h.2 1 (by norm_num) ?_ ?_⟩
  · norm_num [simDynObs, spotDynUpd, Spot.new, Spot.alive, starW,
      mortalLifetime, List.filter]
  · norm_num [simDynObs, simDyn, starW]

/-- C8 witness: the two successive `observe_flux` runs on `simW` (target 0)
over the band `[1, 2]` both return `[27/40]`. -/
theorem observe_flux_deterministic_fill0_witness :
    ([(27 : ℚ) / 40] : List ℚ) = ([(27 : ℚ) / 40] : List ℚ) := by
  have hrun1 : Simulation.observe_flux planckW getFluxW simW [3] 1 2 1 =
      some ([27 / 40], simWobs) := by
    norm_num [Simulation.observe_flux, Simulation.checkAll,
      Simulation.check_fill_factor, checkFillFactorLoop, currentFillFactor,
      updateIntensity, planckW, getFluxW, simW, simWobs, spotWupd, Spot.new,
      Spot.alive, starW, staticSpan]
  have hrun2 : Simulation.observe_flux planckW getFluxW simWobs [3] 1 2 1 =
      some ([27 / 40], simWobs) := by
    norm_num [Simulation.observe_flux, Simulation.checkAll,
      Simulation.check_fill_factor, checkFillFactorLoop, currentFillFactor,
      updateIntensity, planckW, getFluxW, simW, simWobs, spotWupd, Spot.new,
      Spot.alive, starW, staticSpan]
  exact observe_flux_deterministic_fill0 planckW getFluxW simW [3] 1 2 1 1
    _ _ _ _ rfl hrun1 hrun2

theorem addInto_eq_zipWith (total prof : List ℚ)
    (h : total.length ≤ prof.length) :
    addInto total prof = List.zipWith (· + ·) total prof := by
  unfold addInto
  rw [List.drop_eq_nil_of_le h, List.append_nil]

theorem getD_zipWith_add (a b : List ℚ) (i : ℕ) (hi : i < a.length)
    (hlen : a.length = b.length) :
    (List.zipWith (· + ·) a b).getD i 0 = a.getD i 0 + b.getD i 0 := by
  have h1 : i < (List.zipWith (· + ·) a b).length := by
    rw [List.length_zipWith, ← hlen, min_self]
    exact hi
  rw [List.getD_eq_getElem _ _ h1, List.getElem_zipWith,
    List.getD_eq_getElem _ _ hi, List.getD_eq_getElem _ _ (by rw [← hlen]; exact hi)]

theorem foldl_addInto_spec (t : ℚ) (getCcf : Spot → ℚ → List ℚ) (L : ℕ)
    (hf : ∀ s, (getCcf s t).length = L) :
    ∀ (xs : List Spot) (total : List ℚ), total.length = L →
      (xs.foldl (fun tot s => addInto tot (getCcf s t)) total).length = L ∧
      ∀ i, i < L →
        (xs.foldl (fun tot s => addInto tot (getCcf s t)) total).getD i 0 =
          total.getD i 0 +
            (xs.map (fun s => (getCcf s t).getD i 0)).sum := by
  intro xs
  induction xs with
  | nil =>
    intro total ht
    exact ⟨ht, fun i hi => by simp⟩
  | cons a xs ih =>
    intro total ht
    have hadd : addInto total (getCcf a t) =
        List.zipWith (· + ·) total (getCcf a t) :=
      addInto_eq_zipWith _ _ (by rw [ht, hf])
    have hlen2 : (addInto total (getCcf a t)).length = L := by
      rw [hadd, List.length_zipWith, ht, hf, min_self]
    obtain ⟨ih1, ih2⟩ := ih (addInto total (getCcf a t)) hlen2
    refine ⟨ih1, fun i hi => ?_⟩
    rw [List.foldl_cons, ih2 i hi, hadd,
      getD_zipWith_add _ _ _ (by rw [ht]; exact hi) (by rw [ht, hf]),
      List.map_cons, List.sum_cons]
    ring

theorem subFrom_length (sp ccf : List ℚ) (hlen : sp.length = ccf.length) :
    (subFrom sp ccf).length = ccf.length := by
  unfold subFrom
  rw [List.drop_eq_nil_of_le (by rw [hlen]), List.append_nil,
    List.length_zipWith, hlen, min_self]

theorem subFrom_getD (sp ccf : List ℚ) (hlen : sp.length = ccf.length)
    (i : ℕ) (hi : i < ccf.length) :
    (subFrom sp ccf).getD i 0 = ccf.getD i 0 - sp.getD i 0 := by
  unfold subFrom
  rw [List.drop_eq_nil_of_le (by rw [hlen]), List.append_nil]
  have h1 : i < (List.zipWith (fun sp st => st - sp) sp ccf).length := by
    rw [List.length_zipWith, hlen, min_self]
    exact hi
  rw [List.getD_eq_getElem _ _ h1, List.getElem_zipWith,
    List.getD_eq_getElem ccf 0 hi,
    List.getD_eq_getElem sp 0 (show i < sp.length by rw [hlen]; exact hi)]

theorem getD_replicate_zero (n i : ℕ) :
    (List.replicate n (0 : ℚ)).getD i 0 = 0 := by
  rcases lt_or_le i n with h | h
  · rw [List.getD_eq_getElem _ _ (by simpa using h), List.getElem_replicate]
  · rw [List.getD_eq_default _ _ (by simpa using h)]

/-- The buffer `observe_rv` builds for one time equals, pointwise, the net
profile the spec describes: quiet integrated profile minus the summed alive
contributions. -/
theorem net_eq_specNetProfile (star : StarData) (getCcf : Spot → ℚ → List ℚ)
    (spots : List Spot) (t : ℚ)
    (hlen : star.profile_active_len = star.integrated_ccf.length)
    (hccf : ∀ s u, (getCcf s u).length = star.integrated_ccf.length) :
    subFrom ((spots.filter (fun s => s.alive t)).foldl
        (fun total s => addInto total (getCcf s t))
        (List.replicate star.profile_active_len 0))
      star.integrated_ccf =
      specNetProfile star getCcf spots t := by
  obtain ⟨hflen, hfval⟩ := foldl_addInto_spec t getCcf
    star.integrated_ccf.length (fun s => hccf s t)
    (spots.filter (fun s => s.alive t))
    (List.replicate star.profile_active_len 0)
    (by rw [List.length_replicate, hlen])
  apply List.ext_getElem
  · rw [subFrom_length _ _ hflen, specNetProfile, List.length_map,
      List.length_range]
  · intro i h1 h2
    have hiL : i < star.integrated_ccf.length := by
      rw [subFrom_length _ _ hflen] at h1
      exact h1
    rw [← List.getD_eq_getElem _ 0 h1, ← List.getD_eq_getElem _ 0 h2,
      subFrom_getD _ _ hflen i hiL, hfval i hiL, getD_replicate_zero, zero_add]
    have hspec : (specNetProfile star getCcf spots t).getD i 0 =
        star.integrated_ccf.getD i 0 -
          ((spots.filter (fun s => s.alive t)).map
            (fun s => (getCcf s t).getD i 0)).sum := by
      unfold specNetProfile
      rw [List.getD_eq_getElem _ 0 (by simpa using hiL), List.getElem_map,
        List.getElem_range]
    rw [hspec]

/-- C6: for every time in the batch, a returned `observe_rv` call reports,
per time `t`, the radial velocity `fitRv(quiet velocity grid, net profile) −
zero_rv` and the bisector `computeBisector(quiet velocity grid, net profile)`
with `zero_rv` subtracted from each point, where the net profile is the
disk-integrated quiet profile minus the summed line-profile contributions of
exactly the regions alive at `t` (under the interface contract that every
profile shares the integrated profile's length). -/
theorem observe_rv_net_profile_formula (planck : ℚ → ℚ → ℚ → ℚ)
    (getCcf : Spot → ℚ → List ℚ) (fitRv : List ℚ → List ℚ → ℚ)
    (computeBisector : List ℚ → List ℚ → List ℚ) (sim : Simulation)
    (time : List ℚ) (wmin wmax : ℚ) (fuel : ℕ) (obs : List Observation)
    (sim' : Simulation)
    (hrun : Simulation.observe_rv planck getCcf fitRv computeBisector sim time
      wmin wmax fuel = some (obs, sim'))
    (hlen : sim.star.profile_active_len = sim.star.integrated_ccf.length)
    (hccf : ∀ s u, (getCcf s u).length = sim.star.integrated_ccf.length) :
    obs = time.map (fun t =>
      { rv := fitRv sim'.star.profile_quiet_rv
          (specNetProfile sim'.star getCcf sim'.spots t) - sim'.star.zero_rv
        bisector := (computeBisector sim'.star.profile_quiet_rv
          (specNetProfile sim'.star getCcf sim'.spots t)).map
            (fun b => b - sim'.star.zero_rv) }) := by
  unfold Simulation.observe_rv at hrun
  dsimp only [] at hrun
  split at hrun
  · exact absurd hrun (by simp)
  next sim2 hchk =>
    rw [Option.some.injEq, Prod.mk.injEq] at hrun
    obtain ⟨hobs, hsim⟩ := hrun
    subst hsim
    subst hobs
    apply List.map_congr_left
    intro t _
    rw [net_eq_specNetProfile sim2.star getCcf sim2.spots t
      (by rw [(checkAll_extends _ _ _ _ hchk).1]; exact hlen)
      (by rw [(checkAll_extends _ _ _ _ hchk).1]; exact hccf)]

/-- C6 witness: the `observe_rv` run on `simW` at time 3 over the band
`[1, 2]` with the concrete external stand-ins returns exactly the
spec-side formula's value. -/
theorem observe_rv_net_profile_formula_witness :
    obsW = ([3] : List ℚ).map (fun t =>
      { rv := fitRvW simWobs.star.profile_quiet_rv
          (specNetProfile simWobs.star getCcfW simWobs.spots t) -
            simWobs.star.zero_rv
        bisector := (computeBisectorW simWobs.star.profile_quiet_rv
          (specNetProfile simWobs.star getCcfW simWobs.spots t)).map
            (fun b => b - simWobs.star.zero_rv) }) := by
  have hrun : Simulation.observe_rv planckW getCcfW fitRvW computeBisectorW
      simW [3] 1 2 1 = some (obsW, simWobs) := by
    have hrep : List.replicate (2 : ℕ) (0 : ℚ) = [0, 0] := rfl
    have hdrop : ∀ a b : ℚ, List.drop 2 [a, b] = ([] : List ℚ) :=
      fun a b => rfl
    norm_num [Simulation.observe_rv, Simulation.checkAll,
      Simulation.check_fill_factor, checkFillFactorLoop, currentFillFactor,
      updateIntensity, planckW, getCcfW, fitRvW, computeBisectorW, simW,
      simWobs, spotWupd, obsW, Spot.new, Spot.alive, starW, staticSpan,
      addInto, subFrom, Observation.mk.injEq, hrep, hdrop,
      List.zipWith_cons_cons]
  exact observe_rv_net_profile_formula planckW getCcfW fitRvW
    computeBisectorW simW [3] 1 2 1 obsW simWobs hrun rfl (fun s u => rfl)

theorem spotShapeEq_update (planck : ℚ → ℚ → ℚ → ℚ) (w1 w2 si : ℚ)
    (s : Spot) : spotShapeEq (updateIntensity planck w1 w2 si s) s :=
  ⟨rfl, rfl, rfl, rfl, rfl, rfl, rfl, rfl⟩

theorem getD_map_append (l new : List Spot) (f : Spot → Spot) (i : ℕ)
    (hi : i < l.length) :
    ((l.map f) ++ new).getD i defaultSpot = f (l.getD i defaultSpot) := by
  rw [List.getD_append _ _ _ _ (by simpa using hi),
    List.getD_eq_getElem _ _ (by simpa using hi), List.getElem_map,
    List.getD_eq_getElem _ _ hi]

theorem getD_append_map (l new : List Spot) (f : Spot → Spot) (i : ℕ)
    (hi : i < l.length) :
    ((l ++ new).map f).getD i defaultSpot = f (l.getD i defaultSpot) := by
  rw [List.map_append]
  exact getD_map_append l (new.map f) f i hi

theorem framePreserved_of_checkAll_on_update (sim : Simulation)
    (upd : Spot → Spot) (hupd : ∀ s, spotShapeEq (upd s) s)
    (time : List ℚ) (fuel : ℕ) (sim2 : Simulation)
    (hchk : Simulation.checkAll { sim with spots := sim.spots.map upd } time
      fuel = some sim2) :
    framePreserved sim sim2 := by
  obtain ⟨e1, e2, new, hs⟩ := checkAll_extends _ _ _ _ hchk
  refine ⟨e1, e2, ?_, ?_⟩
  · rw [hs]
    dsimp only []
    simp
  · intro i hi
    rw [hs]
    dsimp only []
    rw [getD_map_append _ _ _ _ hi]
    exact hupd _

/-- C10: the three observation operations mutate only the spot collection:
for every returned `observe_flux`, `observe_rv` and `draw_rgba` call, the
shared star record and the fill-factor target are unchanged, the spot
collection only grows (appended dynamic regions), and every pre-existing
spot agrees with its old value on every field except the relative
intensity. -/
theorem observe_mutates_only_spots (planck : ℚ → ℚ → ℚ → ℚ)
    (getFlux : Spot → ℚ → ℚ) (getCcf : Spot → ℚ → List ℚ)
    (fitRv : List ℚ → List ℚ → ℚ)
    (computeBisector : List ℚ → List ℚ → List ℚ) (sim : Simulation)
    (time : List ℚ) (t wmin wmax : ℚ) (fuel : ℕ) (r : List ℚ)
    (s1 : Simulation) (o : List Observation) (s2 s3 : Simulation)
    (h1 : Simulation.observe_flux planck getFlux sim time wmin wmax fuel =
      some (r, s1))
    (h2 : Simulation.observe_rv planck getCcf fitRv computeBisector sim time
      wmin wmax fuel = some (o, s2))
    (h3 : Simulation.draw_rgba planck sim t fuel = some s3) :
    framePreserved sim s1 ∧ framePreserved sim s2 ∧ framePreserved sim s3 := by
  refine ⟨?_, ?_, ?_⟩
  · unfold Simulation.observe_flux at h1
    dsimp only [] at h1
    split at h1
    · exact absurd h1 (by simp)
    next sim2 hchk =>
      rw [Option.some.injEq, Prod.mk.injEq] at h1
      obtain ⟨-, hs⟩ := h1
      subst hs
      exact framePreserved_of_checkAll_on_update sim _
        (spotShapeEq_update planck wmin wmax _) time fuel _ hchk
  · unfold Simulation.observe_rv at h2
    dsimp only [] at h2
    split at h2
    · exact absurd h2 (by simp)
    next sim2 hchk =>
      rw [Option.some.injEq, Prod.mk.injEq] at h2
      obtain ⟨-, hs⟩ := h2
      subst hs
      exact framePreserved_of_checkAll_on_update sim _
        (spotShapeEq_update planck wmin wmax _) time fuel _ hchk
  · unfold Simulation.draw_rgba at h3
    split at h3
    · exact absurd h3 (by simp)
    next sim1 hchk =>
      obtain ⟨e1, e2, new, hs⟩ := check_fill_factor_extends _ _ _ _ hchk
      rw [Option.some.injEq] at h3
      subst h3
      refine ⟨e1, e2, ?_, ?_⟩
      · dsimp only []
        rw [hs]
        simp
      · intro i hi
        dsimp only []
        rw [hs, getD_append_map _ _ _ _ hi]
        exact spotShapeEq_update planck _ _ _ _

/-- C10 witness: the three operations run on `simW` (target 0) preserve the
frame: both observation states and the render state keep the star, the
target, and every field of the pre-existing spot except its intensity. -/
theorem observe_mutates_only_spots_witness :
    framePreserved simW simWobs ∧ framePreserved simW simWdraw := by
  have h1 : Simulation.observe_flux planckW getFluxW simW [3] 1 2 1 =
      some ([27 / 40], simWobs) := by
    norm_num [Simulation.observe_flux, Simulation.checkAll,
      Simulation.check_fill_factor, checkFillFactorLoop, currentFillFactor,
      updateIntensity, planckW, getFluxW, simW, simWobs, spotWupd, Spot.new,
      Spot.alive, starW, staticSpan]
  have h2 : Simulation.observe_rv planckW getCcfW fitRvW computeBisectorW
      simW [3] 1 2 1 = some (obsW, simWobs) := by
    have hrep : List.replicate (2 : ℕ) (0 : ℚ) = [0, 0] := rfl
    have hdrop : ∀ a b : ℚ, List.drop 2 [a, b] = ([] : List ℚ) :=
      fun a b => rfl
    norm_num [Simulation.observe_rv, Simulation.checkAll,
      Simulation.check_fill_factor, checkFillFactorLoop, currentFillFactor,
      updateIntensity, planckW, getCcfW, fitRvW, computeBisectorW, simW,
      simWobs, spotWupd, obsW, Spot.new, Spot.alive, starW, staticSpan,
      addInto, subFrom, Observation.mk.injEq, hrep, hdrop,
      List.zipWith_cons_cons]
  have h3 : Simulation.draw_rgba planckW simW 3 1 = some simWdraw := by
    norm_num [Simulation.draw_rgba, Simulation.check_fill_factor,
      checkFillFactorLoop, currentFillFactor, updateIntensity, planckW, simW,
      simWdraw, spotWdraw, Spot.new, Spot.alive, starW, staticSpan]
  have h := observe_mutates_only_spots planckW getFluxW getCcfW fitRvW
    computeBisectorW simW [3] 3 1 2 1 [27 / 40] simWobs obsW simWobs simWdraw
    h1 h2 h3
  exact ⟨h.1, h.2.2⟩

/-! ### Claim theorems for construction-time error handling -/

theorem getField_errs {α : Type} (parse : String → Option α) (dflt : α)
    (errs : List String) (sec : IniSection) (fn sn f : String) :
    (getField parse dflt errs sec fn sn f).2 =
      errs ++ fieldErrors parse sec fn sn f := by
  unfold getField fieldErrors
  cases hl : lookupField sec f with
  | none => cases hp : parse "1.0" <;> simp [hl, hp]
  | some v => cases hp : parse v <;> simp [hl, hp]

theorem loadSpots_errs (pf : String → Option ℚ) (pb : String → Option Bool)
    (star : StarData) (fn : String) :
    ∀ (secs : List (String × IniSection)) (errs : List String),
      (loadSpots pf pb star fn errs secs).2 =
        errs ++ (secs.map (fun p =>
          fieldErrors pf p.2 fn p.1 "latitude" ++
          fieldErrors pf p.2 fn p.1 "longitude" ++
          fieldErrors pf p.2 fn p.1 "size" ++
          fieldErrors pb p.2 fn p.1 "plage")).flatten := by
  intro secs
  induction secs with
  | nil =>
    intro errs
    simp [loadSpots]
  | cons p ps ih =>
    intro errs
    simp only [loadSpots, ih, getField_errs, List.map_cons, List.flatten_cons,
      List.append_assoc]

/-- C5 (amended): when the "star" section is present, `Simulation::new`
examines every star field and every spot-section field, accumulating one
batch of descriptive error strings — exactly the per-field errors of
`specErrorBatch`, in field order — and aborts with the whole batch if and
only if it is non-empty; otherwise construction succeeds.  The
missing-section case of the original claim is false: it aborts immediately
on that first error alone — see the counterexample. -/
theorem simulation_new_error_batch (pf : String → Option ℚ)
    (pn : String → Option ℕ) (pb : String → Option Bool) (cfg : Config)
    (fn : String) (gen : List ℚ)
    (h : (cfg.findSection "star").isSome = true) :
    (specErrorBatch pf pn pb cfg fn = [] ∧
      ∃ sim, Simulation.new pf pn pb cfg fn gen = NewOutcome.ok sim) ∨
    (specErrorBatch pf pn pb cfg fn ≠ [] ∧
      Simulation.new pf pn pb cfg fn gen =
        NewOutcome.configErrors (specErrorBatch pf pn pb cfg fn)) := by
  rw [Option.isSome_iff_exists] at h
  obtain ⟨sec, hsec⟩ := h
  unfold Simulation.new specErrorBatch
  rw [hsec]
  dsimp only []
  simp only [getField_errs, loadSpots_errs, List.nil_append,
    List.append_assoc]
  split
  next hc =>
    left
    rw [List.isEmpty_iff] at hc
    exact ⟨hc, _, rfl⟩
  next hc =>
    right
    refine ⟨?_, rfl⟩
    intro hnil
    rw [hnil] at hc
    simp at hc

/-- C5 counterexample: a configuration without a "star" section (but with a
spot section holding a further, never-reported bad field) makes
`Simulation::new` abort immediately with the single missing-section message,
not with an accumulated batch. -/
theorem missing_section_aborts_alone :
    Simulation.new parseQ parseN parseB cfgNoStar "sun.cfg" [] =
      NewOutcome.missingSection
        "Missing section start in config file sun.cfg" := by
  simp [Simulation.new, cfgNoStar, Config.findSection]

/-- C5 witness: a configuration whose star section misses `radius` and holds
an unparsable `period` yields the batch of both field errors, reported
together. -/
theorem simulation_new_error_batch_witness :
    specErrorBatch parseQ parseN parseB cfgTwoErrors "sun.cfg" ≠ [] ∧
    Simulation.new parseQ parseN parseB cfgTwoErrors "sun.cfg" [] =
      NewOutcome.configErrors
        (specErrorBatch parseQ parseN parseB cfgTwoErrors "sun.cfg") := by
  have h1 : ((cfgTwoErrors.findSection "star").isSome) = true := by
    simp [Config.findSection, cfgTwoErrors]
  have hne : specErrorBatch parseQ parseN parseB cfgTwoErrors "sun.cfg" ≠ [] := by
    simp [specErrorBatch, cfgTwoErrors, Config.findSection, fieldErrors,
      lookupField, parseQ, parseN, parseB, missingFieldMsg, cannotParseMsg,
      startsWithModel]
  rcases simulation_new_error_batch parseQ parseN parseB cfgTwoErrors
      "sun.cfg" [] h1 with ⟨he, -⟩ | ⟨-, hout⟩
  · exact absurd he hne
  · exact ⟨hne, hout⟩

/-- C7: the limb-darkening chord integral returns exactly 0 whenever the
absolute difference between its upper and lower z bounds is below machine
epsilon, for every ordinate `y` and every pair of limb-darkening
coefficients. -/
theorem limb_integral_degenerate_zero (b : Bounds) (y l q : ℝ)
    (h : |b.upper - b.lower| < f64Epsilon) :
    limb_integral b y l q = 0 := by
  rw [limb_integral, if_pos]
  rwa [abs_sub_comm]

/-- C7 witness: degenerate bounds `[0, 0]` at `y = 37` with coefficients 5
and 7 satisfy the epsilon test and integrate to exactly 0. -/
theorem limb_integral_degenerate_zero_witness :
    |(0 : ℝ) - 0| < f64Epsilon ∧ limb_integral ⟨0, 0⟩ 37 5 7 = 0 :=
  ⟨by norm_num [f64Epsilon],
    limb_integral_degenerate_zero ⟨0, 0⟩ 37 5 7 (by norm_num [f64Epsilon])⟩

/-- C9: the raster writer's indices, computed with the hard-coded raster side
1000, reach 1000 in each coordinate at the disk edge; at the on-disk point
`(y, z) = (0, -1)` the last written byte index is `4·(1000·1000) + 3`, beyond
a buffer of exactly `4·1000·1000` bytes; and the index formula attains
`4·(1000·1000 + 1000) + 3` at `(1, -1)`. -/
theorem draw_rgba_index_out_of_bounds :
    zIndexOf (-1) = 1000 ∧ yIndexOf 1 = 1000 ∧
    ((0 : ℚ) ^ 2 + (-1 : ℚ) ^ 2 ≤ 1 ∧
      4 * 1000 * 1000 ≤ drawPixelByteIndex 0 (-1) + 3) ∧
    drawPixelByteIndex 1 (-1) + 3 = 4 * (1000 * 1000 + 1000) + 3 := by
  have hz : zIndexOf (-1) = 1000 := by
    have harg : ((-(-1 : ℚ)) + 1) / 2 * 1000 = ((1000 : ℤ) : ℚ) := by norm_num
    rw [zIndexOf, harg, round_intCast]
    rfl
  have hy1 : yIndexOf 1 = 1000 := by
    have harg : ((1 : ℚ) + 1) / 2 * 1000 = ((1000 : ℤ) : ℚ) := by norm_num
    rw [yIndexOf, harg, round_intCast]
    rfl
  have hy0 : yIndexOf 0 = 500 := by
    have harg : ((0 : ℚ) + 1) / 2 * 1000 = ((500 : ℤ) : ℚ) := by norm_num
    rw [yIndexOf, harg, round_intCast]
    rfl
  refine ⟨hz, hy1, ⟨by norm_num, ?_⟩, ?_⟩
  · rw [drawPixelByteIndex, hz, hy0]
    norm_num
  · rw [drawPixelByteIndex, hz, hy1]

/-- C2: the claim fails on the code and the code contradicts its own unit
convention: with constructor inputs radius 1, period 1, inclination 180, the
stored inclination field is `π` (the constructor converts degrees to
radians), yet the stored equatorial velocity differs from
`(2π·radius·SOLAR_RADIUS)/(period·DAYS_TO_SECONDS) · sin(stored
inclination)` — the code takes the sine of the unconverted argument. -/
theorem equatorial_velocity_inclination_bug :
    (Star.new extTrivial 1 1 180 5000 200 (1 / 10) (1 / 10) 2).inclination =
      Real.pi ∧
    (Star.new extTrivial 1 1 180 5000 200 (1 / 10) (1 / 10) 2).equatorial_velocity ≠
      (2 * Real.pi * 1 * SOLAR_RADIUS) / (1 * DAYS_TO_SECONDS) *
        Real.sin (Star.new extTrivial 1 1 180 5000 200 (1 / 10) (1 / 10) 2).inclination := by
  have hincl : (Star.new extTrivial 1 1 180 5000 200 (1 / 10) (1 / 10) 2).inclination =
      Real.pi := by
    show (180 : ℝ) * Real.pi / 180 = Real.pi
    ring
  refine ⟨hincl, ?_⟩
  rw [hincl, Real.sin_pi, mul_zero]
  show (2 * Real.pi * 1 * SOLAR_RADIUS) / (1 * DAYS_TO_SECONDS) *
      Real.sin 180 ≠ 0
  have hedge : (2 * Real.pi * 1 * SOLAR_RADIUS) / (1 * DAYS_TO_SECONDS) ≠ 0 := by
    rw [SOLAR_RADIUS, DAYS_TO_SECONDS]
    positivity
  have hsin : Real.sin 180 ≠ 0 := by
    intro hz
    obtain ⟨n, hn⟩ := Real.sin_eq_zero_iff.mp hz
    have hn0 : n ≠ 0 := by
      rintro rfl
      norm_num at hn
    have hpi : Real.pi = ((180 / n : ℚ) : ℝ) := by
      push_cast
      field_simp
      linarith [hn]
    exact irrational_pi ⟨180 / n, hpi.symm⟩
  exact mul_ne_zero hedge hsin

end Rather
